import Mathlib

/-!
Shallow embedding of `src/mongoengine/mongo_proxy.py`, a resilience layer
around a MongoDB client handle.

Remote calls are modelled as state-passing functions `σ → PyResult α × σ`.
For claims that count invocations the state is (or contains) an invocation
tick `Nat` that the underlying call increments exactly once per invocation,
so "the underlying callable was invoked exactly n times" is the final tick
minus the initial tick.  Raised exceptions are modelled as an explicit
`PyResult.exc` value; `time.sleep` is modelled by counting how many sleeps
(each of `RETRY_INTERVAL` seconds) the retry loop performs.
-/

/-- Exceptions relevant to the proxy: `pymongo.errors.AutoReconnect` (the
transient-unavailable kind, carrying a payload identifying the concrete
failure instance), `StopIteration`, and every other exception kind. -/
inductive PyExc where
  | autoReconnect : Nat → PyExc
  | stopIteration : PyExc
  | otherError : Nat → PyExc
deriving DecidableEq, Repr

/-- Outcome of one Python call: a returned value or a raised exception. -/
inductive PyResult (α : Type) where
  | ok : α → PyResult α
  | exc : PyExc → PyResult α
deriving DecidableEq, Repr

/-- Does an `except pymongo.errors.AutoReconnect` clause catch this exception? -/
def PyExc.isAutoReconnect : PyExc → Bool
  | .autoReconnect _ => true
  | _ => false

/-- Did the call raise `AutoReconnect`? -/
def PyResult.isAR {α : Type} : PyResult α → Bool
  | .ok _ => false
  | .exc e => e.isAutoReconnect

/-- Source line 32: `max_retries = 10` in `safe_mongo_call`. -/
def MAX_RETRIES : Nat := 10

/-- Source line 33: `retry_interval = 10` in `safe_mongo_call`
(seconds slept before each retry). -/
def RETRY_INTERVAL : Nat := 10

/-- The `while True` loop of the closure built by `safe_mongo_call`
(source lines 34-42): invoke `call`; on a normal return, return its value;
on `AutoReconnect`, re-raise it if `max_retries <= attempts`, otherwise
increment `attempts`, sleep once, and loop; any other exception propagates.
`sleeps` counts the `time.sleep(retry_interval)` calls performed so far.
`fuel` makes the loop a total Lean function; `safe_mongo_call_terminates`
(claim C9) shows the fuel used below is never exhausted, because `attempts`
strictly increases toward `max_retries` on every non-final iteration. -/
def closureLoop {σ α : Type} (call : σ → PyResult α × σ) (max_retries : Nat) :
    Nat → Nat → Nat → σ → Option (PyResult α × Nat × σ)
  | _, 0, _, _ => none
  | attempts, fuel + 1, sleeps, s =>
    match call s with
    | (.ok v, s') => some (.ok v, sleeps, s')
    | (.exc e, s') =>
      if e.isAutoReconnect then
        if max_retries ≤ attempts then some (.exc e, sleeps, s')
        else closureLoop call max_retries (attempts + 1) fuel (sleeps + 1) s'
      else some (.exc e, sleeps, s')

/-- Source lines 29-43, `safe_mongo_call`: the retry executor.  The returned
triple is (outcome, number of sleeps performed, final state).  The fuel
`MAX_RETRIES + 1` is one more than the loop can ever consume. -/
def safe_mongo_call {σ α : Type} (call : σ → PyResult α × σ) (s : σ) :
    Option (PyResult α × Nat × σ) :=
  closureLoop call MAX_RETRIES 0 (MAX_RETRIES + 1) 0 s

/-- A callable whose behaviour on its `t`-th invocation (0-based, counted
across the whole run by the tick threaded through the state) is `b t`. -/
def tickCall {α : Type} (b : Nat → PyResult α) : Nat → PyResult α × Nat :=
  fun t => (b t, t + 1)

/-- Source lines 46-52, `MongoConn`: the call interceptor wraps one bound
method and routes its invocation through `safe_mongo_call`. -/
def MongoConn.call {σ α : Type} (method : σ → PyResult α × σ) (s : σ) :
    Option (PyResult α × Nat × σ) :=
  safe_mongo_call method s

lemma closureLoop_ok {α : Type} (b : Nat → PyResult α) (mr : Nat) (v : α) :
    ∀ (d a sl : Nat), (∀ j, j < d → (b (a + j)).isAR = true) →
      b (a + d) = .ok v → a + d ≤ mr →
      closureLoop (tickCall b) mr a (mr + 1 - a) sl a =
        some (.ok v, sl + d, a + d + 1) := by
  intro d
  induction d with
  | zero =>
    intro a sl _ hok ha
    obtain ⟨f, hf⟩ : ∃ f, mr + 1 - a = f + 1 := ⟨mr - a, by omega⟩
    have hba : b a = PyResult.ok v := by simpa using hok
    rw [hf]
    simp [closureLoop, tickCall, hba]
  | succ d ih =>
    intro a sl hfail hok ha
    obtain ⟨f, hf⟩ : ∃ f, mr + 1 - a = f + 1 := ⟨mr - a, by omega⟩
    have hf2 : f = mr + 1 - (a + 1) := by omega
    have h0 : (b a).isAR = true := by simpa using hfail 0 (Nat.succ_pos d)
    obtain ⟨e, hbe, har⟩ : ∃ e, b a = PyResult.exc e ∧ e.isAutoReconnect = true := by
      cases hb : b a with
      | ok w => rw [hb] at h0; simp [PyResult.isAR] at h0
      | exc e => exact ⟨e, rfl, by rw [hb] at h0; simpa [PyResult.isAR] using h0⟩
    have hlt : ¬ mr ≤ a := by omega
    have hrec := ih (a + 1) (sl + 1)
      (fun j hj => by
        have := hfail (j + 1) (by omega)
        simpa [Nat.add_assoc, Nat.add_comm 1 j] using this)
      (by simpa [Nat.add_assoc, Nat.add_comm 1 d] using hok)
      (by omega)
    rw [hf]
    simp only [closureLoop, tickCall, hbe, har, if_true, hlt, if_false]
    rw [hf2, hrec]
    have e1 : sl + 1 + d = sl + (d + 1) := by omega
    have e2 : a + 1 + d + 1 = a + (d + 1) + 1 := by omega
    rw [e1, e2]

lemma closureLoop_exhaust {α : Type} (b : Nat → PyResult α) (mr : Nat) :
    ∀ (d a sl : Nat), a + d = mr →
      (∀ j, j ≤ d → (b (a + j)).isAR = true) →
      closureLoop (tickCall b) mr a (mr + 1 - a) sl a =
        some (b mr, sl + d, mr + 1) := by
  intro d
  induction d with
  | zero =>
    intro a sl ha hfail
    have hamr : a = mr := by omega
    have h0 : (b a).isAR = true := by simpa using hfail 0 (Nat.le_refl 0)
    obtain ⟨e, hbe, har⟩ : ∃ e, b a = PyResult.exc e ∧ e.isAutoReconnect = true := by
      cases hb : b a with
      | ok w => rw [hb] at h0; simp [PyResult.isAR] at h0
      | exc e => exact ⟨e, rfl, by rw [hb] at h0; simpa [PyResult.isAR] using h0⟩
    obtain ⟨f, hf⟩ : ∃ f, mr + 1 - a = f + 1 := ⟨mr - a, by omega⟩
    rw [hamr] at hbe
    rw [hf, hamr]
    simp [closureLoop, tickCall, hbe, har]
  | succ d ih =>
    intro a sl ha hfail
    have h0 : (b a).isAR = true := by simpa using hfail 0 (Nat.zero_le _)
    obtain ⟨e, hbe, har⟩ : ∃ e, b a = PyResult.exc e ∧ e.isAutoReconnect = true := by
      cases hb : b a with
      | ok w => rw [hb] at h0; simp [PyResult.isAR] at h0
      | exc e => exact ⟨e, rfl, by rw [hb] at h0; simpa [PyResult.isAR] using h0⟩
    obtain ⟨f, hf⟩ : ∃ f, mr + 1 - a = f + 1 := ⟨mr - a, by omega⟩
    have hf2 : f = mr + 1 - (a + 1) := by omega
    have hlt : ¬ mr ≤ a := by omega
    have hrec := ih (a + 1) (sl + 1) (by omega)
      (fun j hj => by
        have := hfail (j + 1) (by omega)
        simpa [Nat.add_assoc, Nat.add_comm 1 j] using this)
    rw [hf]
    simp only [closureLoop, tickCall, hbe, har, if_true, hlt, if_false]
    rw [hf2, hrec]
    have e1 : sl + 1 + d = sl + (d + 1) := by omega
    rw [e1]

/-- C1: for every callable wrapped by the retry executor that raises
`AutoReconnect` on exactly its first `k` invocations, `k ≤ 10`, and returns
the value `v` on invocation `k`, the wrapped call returns `v`; the final
tick `k + 1` records that the underlying callable was invoked exactly
`k + 1` times (and `k` sleeps were performed). -/
theorem c1_bounded_retry {α : Type} (b : Nat → PyResult α) (v : α) (k : Nat)
    (hk : k ≤ 10) (hfail : ∀ t, t < k → (b t).isAR = true)
    (hok : b k = .ok v) :
    safe_mongo_call (tickCall b) 0 = some (.ok v, k, k + 1) := by
  have := closureLoop_ok b MAX_RETRIES v k 0 0
    (fun j hj => by simpa using hfail j hj)
    (by simpa using hok) (by simpa [MAX_RETRIES] using hk)
  simpa [safe_mongo_call] using this

/-- Witness for C1 at `k = 3`: three transient failures, then success. -/
theorem c1_bounded_retry_witness :
    safe_mongo_call
      (tickCall (fun t => if t < 3 then .exc (.autoReconnect t) else .ok (42 : Nat))) 0 =
      some (.ok 42, 3, 4) := by
  apply c1_bounded_retry _ _ 3 (by omega)
  · intro t ht
    interval_cases t <;> rfl
  · rfl

/-- C2: for every callable wrapped by the retry executor that raises
`AutoReconnect` on each of its first 11 invocations (ticks 0 through 10),
the wrapped call raises exactly the exception of invocation 10 — the last
such failure, same kind — after 10 sleeps, with final tick 11: the
underlying callable was invoked exactly 11 times (1 initial + 10 retries).
The behaviour `b t` for `t ≥ 11` is unconstrained, so there is never a
12th invocation. -/
theorem c2_exhaustion {α : Type} (b : Nat → PyResult α)
    (hfail : ∀ t, t ≤ 10 → (b t).isAR = true) :
    safe_mongo_call (tickCall b) 0 = some (b 10, 10, 11) := by
  have := closureLoop_exhaust b MAX_RETRIES 10 0 0 (by simp [MAX_RETRIES])
    (fun j hj => by simpa using hfail j hj)
  simpa [safe_mongo_call, MAX_RETRIES] using this

/-- Witness for C2: a callable that always raises `AutoReconnect`. -/
theorem c2_exhaustion_witness :
    safe_mongo_call (tickCall (fun t => (.exc (.autoReconnect t) : PyResult Nat))) 0 =
      some (.exc (.autoReconnect 10), 10, 11) := by
  exact c2_exhaustion _ (fun t _ => rfl)

/-- C5: for every callable wrapped by the retry executor whose first
invocation raises an exception that is not `AutoReconnect`, the wrapped
call raises that same exception (kind unchanged), with 0 sleeps and final
tick 1: the underlying callable was invoked exactly once. -/
theorem c5_no_retry_other {α : Type} (b : Nat → PyResult α) (e : PyExc)
    (hb : b 0 = .exc e) (hne : e.isAutoReconnect = false) :
    safe_mongo_call (tickCall b) 0 = some (.exc e, 0, 1) := by
  simp [safe_mongo_call, MAX_RETRIES, closureLoop, tickCall, hb, hne]

/-- Witness for C5: a callable that raises a non-transient exception. -/
theorem c5_no_retry_other_witness :
    safe_mongo_call (tickCall (fun _ => (.exc (.otherError 7) : PyResult Nat))) 0 =
      some (.exc (.otherError 7), 0, 1) := by
  exact c5_no_retry_other _ _ rfl rfl

lemma closureLoop_total {σ α : Type} (call : σ → PyResult α × σ) (mr : Nat) :
    ∀ (fuel a sl : Nat) (s : σ), mr - a < fuel →
      ∃ out, closureLoop call mr a fuel sl s = some out := by
  intro fuel
  induction fuel with
  | zero => intro a sl s h; omega
  | succ f ih =>
    intro a sl s h
    simp only [closureLoop]
    cases hc : call s with
    | mk r s' =>
      cases r with
      | ok v => exact ⟨_, rfl⟩
      | exc e =>
        by_cases har : e.isAutoReconnect = true
        · by_cases hle : mr ≤ a
          · simp [har, hle]
          · simp only [har, if_true, hle, if_false]
            exact ih (a + 1) (sl + 1) s' (by omega)
        · simp [har]

lemma closureLoop_tick_bound {α : Type} (b : Nat → PyResult α) (mr : Nat) :
    ∀ (fuel a sl t : Nat) (r : PyResult α) (sl' t' : Nat),
      closureLoop (tickCall b) mr a fuel sl t = some (r, sl', t') →
      t' ≤ t + fuel := by
  intro fuel
  induction fuel with
  | zero => intro a sl t r sl' t' h; simp [closureLoop] at h
  | succ f ih =>
    intro a sl t r sl' t' h
    simp only [closureLoop, tickCall] at h
    cases hb : b t with
    | ok v => rw [hb] at h; simp at h; omega
    | exc e =>
      rw [hb] at h
      by_cases har : e.isAutoReconnect = true
      · by_cases hle : mr ≤ a
        · simp [har, hle] at h; omega
        · simp only [har, if_true, hle, if_false] at h
          have := ih (a + 1) (sl + 1) (t + 1) r sl' t' h
          omega
      · simp [har] at h; omega

/-- C9: the retry-wrapped call always terminates with a definite outcome
(the loop's fuel is never exhausted, `attempts` being the strictly
increasing variant bounded by `MAX_RETRIES`), and the underlying callable
is invoked at most 11 times: the final tick exceeds the initial one by at
most `MAX_RETRIES + 1 = 11`. -/
theorem c9_retry_terminates {α : Type} (b : Nat → PyResult α) (t0 : Nat) :
    ∃ r sl t1, safe_mongo_call (tickCall b) t0 = some (r, sl, t1) ∧
      t1 ≤ t0 + (MAX_RETRIES + 1) := by
  obtain ⟨⟨r, sl, t1⟩, hout⟩ :=
    closureLoop_total (tickCall b) MAX_RETRIES (MAX_RETRIES + 1) 0 0 t0
      (by simp [MAX_RETRIES])
  exact ⟨r, sl, t1, hout,
    closureLoop_tick_bound b MAX_RETRIES (MAX_RETRIES + 1) 0 0 t0 r sl t1 hout⟩

/-- Modelled from the spec (the underlying pymongo cursor type is an
external collaborator, not part of this repository): a server-side result
cursor is its query's full result sequence plus the number of results
already consumed — its position. -/
structure PCursor (α : Type) where
  query : List α
  retrieved : Nat
deriving DecidableEq, Repr

/-- Modelled from the spec and from the pymongo documentation quoted
verbatim in `CursorProxy.clone`'s docstring (source lines 138-142):
`Cursor.clone` returns a new cursor with options matching the current
instance, "completely unevaluated, even if the current instance has been
partially or completely evaluated" — same query, position reset to the
start. -/
def PCursor.clone {α : Type} (c : PCursor α) : PCursor α :=
  ⟨c.query, 0⟩

lemma PCursor.clone_clone {α : Type} (c : PCursor α) :
    c.clone.clone = c.clone := rfl

/-- Source lines 112-114: `CursorProxy` wraps one live pymongo cursor, held
in its `cursor` attribute. -/
structure CursorProxy (α : Type) where
  cursor : PCursor α
deriving DecidableEq, Repr

/-- Source lines 100-109, `safe_cursor_call`: before the wrapped cursor
operation runs, snapshot `save_cursor = self.cursor.clone()`; if the
operation raises `AutoReconnect`, install the snapshot as `self.cursor` and
re-raise the same exception; a normal return, or any other exception,
passes through with whatever state the operation left behind. -/
def safe_cursor_call {α β : Type}
    (call : CursorProxy α × Nat → PyResult β × (CursorProxy α × Nat)) :
    CursorProxy α × Nat → PyResult β × (CursorProxy α × Nat) :=
  fun st =>
    let save_cursor := st.1.cursor.clone
    match call st with
    | (.ok v, st') => (.ok v, st')
    | (.exc e, st') =>
      if e.isAutoReconnect then (.exc e, (⟨save_cursor⟩, st'.2))
      else (.exc e, st')

/-- Modelled from the spec: one invocation of the underlying pymongo
`Cursor.next` at tick `t`.  `fails t = true` means the transport raises
`AutoReconnect` on that invocation (store mid-failover); otherwise the
cursor yields the element at its position and advances, or raises
`StopIteration` once exhausted. -/
def rawNextCall {α : Type} (fails : Nat → Bool) :
    CursorProxy α × Nat → PyResult α × (CursorProxy α × Nat) :=
  fun st =>
    if fails st.2 then (.exc (.autoReconnect st.2), (st.1, st.2 + 1))
    else
      match st.1.cursor.query.get? st.1.cursor.retrieved with
      | some v =>
        (.ok v, (⟨⟨st.1.cursor.query, st.1.cursor.retrieved + 1⟩⟩, st.2 + 1))
      | none => (.exc .stopIteration, (st.1, st.2 + 1))

/-- Modelled from the spec: one invocation of the underlying pymongo
`Cursor.__getitem__` at tick `t`: the element at offset `item` of the
result sequence, an `IndexError` (a non-transient exception) when out of
range, `AutoReconnect` when the transport fails. -/
def rawGetitemCall {α : Type} (fails : Nat → Bool) (item : Nat) :
    CursorProxy α × Nat → PyResult α × (CursorProxy α × Nat) :=
  fun st =>
    if fails st.2 then (.exc (.autoReconnect st.2), (st.1, st.2 + 1))
    else
      match st.1.cursor.query.get? item with
      | some v => (.ok v, (st.1, st.2 + 1))
      | none => (.exc (.otherError 0), (st.1, st.2 + 1))

/-- Source lines 126-133: `CursorProxy.next` is the raw cursor advance
wrapped in `safe_cursor_call` and then in `safe_mongo_call`. -/
def CursorProxy.next {α : Type} (fails : Nat → Bool)
    (st : CursorProxy α × Nat) :
    Option (PyResult α × Nat × (CursorProxy α × Nat)) :=
  safe_mongo_call (safe_cursor_call (rawNextCall fails)) st

/-- Source lines 116-124: `CursorProxy.__getitem__`, wrapped the same way. -/
def CursorProxy.getitem {α : Type} (fails : Nat → Bool) (item : Nat)
    (st : CursorProxy α × Nat) :
    Option (PyResult α × Nat × (CursorProxy α × Nat)) :=
  safe_mongo_call (safe_cursor_call (rawGetitemCall fails item)) st

/-- Source lines 135-144: `CursorProxy.clone` clones the wrapped cursor and
wraps the clone in a new `CursorProxy`. -/
def CursorProxy.clone {α : Type} (p : CursorProxy α) : CursorProxy α :=
  ⟨p.cursor.clone⟩

/-- Source lines 74-78: `MongoProxy.find` invokes `self.conn.find` once —
directly, not through the retry executor (`find` is a plain method of
`MongoProxy`, so `__getattr__` never fires for it) — and wraps the returned
cursor in a `CursorProxy`; an exception raised by the underlying `find`
propagates.  `conn_find t` is the behaviour of the underlying `find` at
tick `t`; a successful pymongo `find` returns an unevaluated cursor over
the query's results. -/
def MongoProxy.find {α : Type} (conn_find : Nat → PyResult (List α))
    (t : Nat) : PyResult (CursorProxy α) × Nat :=
  match conn_find t with
  | .ok items => (.ok ⟨⟨items, 0⟩⟩, t + 1)
  | .exc e => (.exc e, t + 1)

/-- Advance a cursor proxy with `CursorProxy.next` up to `n` times,
collecting the yielded values; stop at the first advance that does not
return a value. -/
def drain {α : Type} (fails : Nat → Bool) :
    Nat → CursorProxy α × Nat → List α
  | 0, _ => []
  | n + 1, st =>
    match CursorProxy.next fails st with
    | some (.ok v, _, st') => v :: drain fails n st'
    | _ => []

/-- C8: cloning an iterator proxy at any position `k` of a partial or
complete iteration yields a proxy over an unevaluated cursor with the same
query and its position reset to the start, regardless of `k` (the model is
pure, so the cloning leaves the original proxy untouched); the first
advance of such a clone (no transport failures) yields the first element
of the query. -/
theorem c8_clone_unevaluated {α : Type} (q : List α) (k : Nat) :
    CursorProxy.clone ⟨⟨q, k⟩⟩ = (⟨⟨q, 0⟩⟩ : CursorProxy α) ∧
    ∀ (x : α) (rest : List α) (k' t : Nat),
      CursorProxy.next (fun _ => false)
          (CursorProxy.clone ⟨⟨x :: rest, k'⟩⟩, t) =
        some (.ok x, 0, (⟨⟨x :: rest, 1⟩⟩, t + 1)) := by
  exact ⟨rfl, fun x rest k' t => rfl⟩

/-- C3 (code behaviour at the claim's scenario): iterate `[1, 2, 3]`, the
first advance (tick 0) succeeding and yielding `1`.  (i) If the single
underlying attempt to fetch the second element (tick 1) fails transiently,
the automatic retry inside `CursorProxy.next` "succeeds" but yields `1`
again — the restored snapshot is a completely unevaluated clone, so the
position was lost — where the claim requires `2`.  (ii) If the second
advance fails transiently on all 11 attempts (ticks 1-11) and ultimately
raises `AutoReconnect`, the subsequent advance issued by the caller at
tick 12 likewise yields `1`, not `2`. -/
theorem c3_cursor_restart_bug :
    CursorProxy.next (fun t => t == 1) ((⟨⟨[1, 2, 3], 0⟩⟩ : CursorProxy Nat), 0) =
      some (.ok 1, 0, (⟨⟨[1, 2, 3], 1⟩⟩, 1)) ∧
    CursorProxy.next (fun t => t == 1) ((⟨⟨[1, 2, 3], 1⟩⟩ : CursorProxy Nat), 1) =
      some (.ok 1, 1, (⟨⟨[1, 2, 3], 1⟩⟩, 3)) ∧
    CursorProxy.next (fun t => decide (1 ≤ t ∧ t ≤ 11))
        ((⟨⟨[1, 2, 3], 1⟩⟩ : CursorProxy Nat), 1) =
      some (.exc (.autoReconnect 11), 10, (⟨⟨[1, 2, 3], 0⟩⟩, 12)) ∧
    CursorProxy.next (fun t => decide (1 ≤ t ∧ t ≤ 11))
        ((⟨⟨[1, 2, 3], 0⟩⟩ : CursorProxy Nat), 12) =
      some (.ok 1, 0, (⟨⟨[1, 2, 3], 1⟩⟩, 13)) := by
  refine ⟨rfl, rfl, by decide, by decide⟩

lemma closureLoop_cursor_restore {α β : Type}
    (call : CursorProxy α × Nat → PyResult β × (CursorProxy α × Nat))
    (mr : Nat) :
    ∀ (fuel a sl : Nat) (p : CursorProxy α) (t : Nat) (e : PyExc)
      (sl' : Nat) (p' : CursorProxy α) (t' : Nat),
      closureLoop (safe_cursor_call call) mr a fuel sl (p, t) =
        some (.exc e, sl', (p', t')) →
      e.isAutoReconnect = true → p' = ⟨p.cursor.clone⟩ := by
  intro fuel
  induction fuel with
  | zero => intro a sl p t e sl' p' t' h _; simp [closureLoop] at h
  | succ f ih =>
    intro a sl p t e sl' p' t' h har
    simp only [closureLoop, safe_cursor_call] at h
    cases hc : call (p, t) with
    | mk r st1 =>
      rw [hc] at h
      obtain ⟨p1, t1⟩ := st1
      cases r with
      | ok v => simp at h
      | exc e1 =>
        by_cases h1 : e1.isAutoReconnect = true
        · simp only [h1, if_true] at h
          by_cases hle : mr ≤ a
          · simp only [hle, if_true, Option.some.injEq, Prod.mk.injEq] at h
            exact h.2.2.1.symm
          · simp only [hle, if_false] at h
            have := ih (a + 1) (sl + 1) ⟨p.cursor.clone⟩ t1 e sl' p' t' h har
            rw [this, PCursor.clone_clone]
        · simp only [h1, Bool.false_eq_true, if_false, Option.some.injEq,
            Prod.mk.injEq, PyResult.exc.injEq] at h
          rw [← h.1] at har
          exact absurd har h1

/-- C6 (amended): every state-advancing cursor-proxy operation — an
underlying call wrapped in `safe_cursor_call` and then `safe_mongo_call`,
which is exactly how `CursorProxy.next` and `CursorProxy.getitem` are
built — that ultimately raises `AutoReconnect` (the kind is unchanged)
after the retry executor's bounded retries leaves the proxy with its
current cursor replaced by one rebuilt from the snapshot
(`self.cursor.clone()`) taken before the advance; that snapshot is a
completely unevaluated clone, so the rebuilt cursor has the same query but
its position reset to the start — not the pre-advance position — and the
proxy remains a well-formed, usable proxy over that clone. -/
theorem c6_advance_recovery {α β : Type}
    (call : CursorProxy α × Nat → PyResult β × (CursorProxy α × Nat))
    (p : CursorProxy α) (t : Nat) (e : PyExc) (sl' : Nat)
    (p' : CursorProxy α) (t' : Nat)
    (h : safe_mongo_call (safe_cursor_call call) (p, t) =
      some (.exc e, sl', (p', t')))
    (har : e.isAutoReconnect = true) :
    p' = ⟨p.cursor.clone⟩ ∧ p'.cursor.query = p.cursor.query ∧
      p'.cursor.retrieved = 0 := by
  have hp := closureLoop_cursor_restore call MAX_RETRIES (MAX_RETRIES + 1)
    0 0 p t e sl' p' t' (by simpa [safe_mongo_call] using h) har
  subst hp
  exact ⟨rfl, rfl, rfl⟩

/-- Witness for C6 (amended): an always-failing advance from position 1
over `[5, 6]` leaves the proxy rebuilt over the same query at position 0. -/
theorem c6_advance_recovery_witness :
    (⟨⟨[5, 6], 0⟩⟩ : CursorProxy Nat) = ⟨(⟨[5, 6], 1⟩ : PCursor Nat).clone⟩ ∧
    (⟨⟨[5, 6], 0⟩⟩ : CursorProxy Nat).cursor.query =
      (⟨[5, 6], 1⟩ : PCursor Nat).query ∧
    (⟨⟨[5, 6], 0⟩⟩ : CursorProxy Nat).cursor.retrieved = 0 :=
  c6_advance_recovery (rawNextCall (fun _ => true)) ⟨⟨[5, 6], 1⟩⟩ 0
    (.autoReconnect 10) 10 ⟨⟨[5, 6], 0⟩⟩ 11 (by decide) (by decide)

/-- Counterexample to C6 as stated: with every underlying attempt failing
transiently, an advance from position 1 over `[5, 6]` ultimately raises
`AutoReconnect` and leaves the rebuilt proxy at position 0 — observable
state is not "unchanged on error": the proxy is not positioned as it was
before the failed advance. -/
theorem c6_advance_counterexample :
    safe_mongo_call (safe_cursor_call (rawNextCall (fun _ => true)))
        ((⟨⟨[5, 6], 1⟩⟩ : CursorProxy Nat), 0) =
      some (.exc (.autoReconnect 10), 10, (⟨⟨[5, 6], 0⟩⟩, 11)) ∧
    (⟨⟨[5, 6], 0⟩⟩ : CursorProxy Nat) ≠ ⟨⟨[5, 6], 1⟩⟩ := by decide

/-- Counterexample to C4 as stated: with the underlying `find` raising
`AutoReconnect` on its first two invocations (ticks 0 and 1) and returning
`[1, 2, 3]` from the third on, `MongoProxy.find` at tick 0 raises
`AutoReconnect` after exactly one underlying invocation (final tick 1) —
it does not return a successful iterator after 3 invocations. -/
theorem c4_find_counterexample :
    MongoProxy.find
        (fun t => if t < 2 then .exc (.autoReconnect t) else .ok [1, 2, 3])
        0 =
      (.exc (.autoReconnect 0), 1) := by decide

/-- C4 (amended): `MongoProxy.find` invokes the underlying `find` exactly
once, with no retry at this layer: if that single invocation raises, the
same exception propagates with final tick `t + 1`; if it returns
`[1, 2, 3]`, the proxy returns a cursor proxy over `[1, 2, 3]` at position
0, and advancing it three times (no transport failures) yields `1, 2, 3`. -/
theorem c4_find_once (b : Nat → PyResult (List Nat)) (t : Nat) :
    (∀ e, b t = .exc e → MongoProxy.find b t = (.exc e, t + 1)) ∧
    (b t = .ok [1, 2, 3] →
      MongoProxy.find b t = (.ok ⟨⟨[1, 2, 3], 0⟩⟩, t + 1) ∧
      drain (fun _ => false) 3 (⟨⟨[1, 2, 3], 0⟩⟩, t + 1) = [1, 2, 3]) := by
  constructor
  · intro e he
    simp [MongoProxy.find, he]
  · intro h
    refine ⟨by simp [MongoProxy.find, h], rfl⟩

/-- Witness for C4 (amended): both branches at concrete inputs — a
non-transient failure propagates unretried, and a successful `find`
yields a proxy that drains to `1, 2, 3`. -/
theorem c4_find_once_witness :
    MongoProxy.find (fun _ => (.exc (.otherError 3) : PyResult (List Nat))) 0 =
      (.exc (.otherError 3), 1) ∧
    MongoProxy.find (fun _ => .ok [1, 2, 3]) 5 =
      (.ok ⟨⟨[1, 2, 3], 0⟩⟩, 6) ∧
    drain (fun _ => false) 3 (⟨⟨[1, 2, 3], 0⟩⟩, 6) = [1, 2, 3] :=
  ⟨(c4_find_once (fun _ => (.exc (.otherError 3) : PyResult (List Nat))) 0).1 _ rfl,
   ((c4_find_once (fun _ => .ok [1, 2, 3]) 5).2 rfl).1,
   ((c4_find_once (fun _ => .ok [1, 2, 3]) 5).2 rfl).2⟩

/-- Result of `MongoProxy.__getattr__`: the raw underlying value, a new
`MongoProxy` wrapping the value, or a `MongoConn` call interceptor
wrapping it. -/
inductive GetattrResult (V : Type) where
  | raw : V → GetattrResult V
  | proxy : V → GetattrResult V
  | mongoConn : V → GetattrResult V
deriving DecidableEq, Repr

/-- Source lines 80-94, `MongoProxy.__getattr__`.  `methods` is the
process-wide `MONGO_METHODS` membership test and `is_callable` is
`six.callable`; both are parameters because their concrete values are
computed from the external pymongo and six libraries.  `conn_attr item`
models `getattr(self.conn, item)`. -/
def MongoProxy.getattr {V : Type} (methods : String → Bool)
    (is_callable : V → Bool) (conn_attr : String → V) (item : String) :
    GetattrResult V :=
  let real_item := conn_attr item
  if item = "name" ∨ item = "database" then .raw real_item
  else if item = "connection" then .proxy real_item
  else if methods item && is_callable real_item then .mongoConn real_item
  else .raw real_item

/-- Modelled from the spec: `MONGO_METHODS` (source lines 55-60) is computed
once, process-wide, as every non-underscore member name of the external
pymongo collection and client types and of the pymongo module itself; those
types are not part of this repository, so a representative value is fixed
here.  Every non-underscore member name is included, not only methods — in
particular the collection type's data-descriptor names `name` and
`database`. -/
def MONGO_METHODS : List String :=
  ["find", "insert", "update", "remove", "save", "count", "aggregate",
   "drop", "rename", "name", "database", "connection"]

/-- C10: for the member names `name` and `database`, `__getattr__` returns
the raw underlying attribute value for every operation-name set and every
callability predicate — in particular when the name is in the set and the
resolved value is invocable — because the identity/metadata check precedes
the operation-set check; such members are never wrapped in a `MongoConn`
interceptor, so they never receive retry protection.  (And both names do
occur in the operation-name set as modelled.) -/
theorem c10_name_database_precedence {V : Type} (methods : String → Bool)
    (is_callable : V → Bool) (conn_attr : String → V) :
    MongoProxy.getattr methods is_callable conn_attr "name" =
      .raw (conn_attr "name") ∧
    MongoProxy.getattr methods is_callable conn_attr "database" =
      .raw (conn_attr "database") ∧
    MONGO_METHODS.contains "name" = true ∧
    MONGO_METHODS.contains "database" = true :=
  ⟨rfl, rfl, by decide, by decide⟩

/-- Counterexample to C7 as stated: `database` is in the operation-name set
(it is a non-underscore member name of the pymongo collection type) and its
resolved value is invocable (the pymongo database type defines a call
method), yet `__getattr__` yields the raw value, not a call interceptor:
the identity/metadata check fires first. -/
theorem c7_classification_counterexample :
    (fun s => MONGO_METHODS.contains s) "database" = true ∧
    MongoProxy.getattr (fun s => MONGO_METHODS.contains s) (fun _ => true)
        (fun _ => (0 : Nat)) "database" ≠ .mongoConn 0 := by decide

/-- C7 (amended): `__getattr__` classifies member access with an explicit
precedence: the names `name` and `database` always yield the raw value;
otherwise the nested-resource name `connection` yields a new proxy wrapping
the child handle; otherwise a name in the operation-name set whose resolved
value is invocable yields a `MongoConn` call interceptor; any other name
yields the raw underlying value with no wrapping. -/
theorem c7_classification {V : Type} (methods : String → Bool)
    (is_callable : V → Bool) (conn_attr : String → V) (item : String) :
    (item = "name" ∨ item = "database" →
      MongoProxy.getattr methods is_callable conn_attr item =
        .raw (conn_attr item)) ∧
    (item = "connection" →
      MongoProxy.getattr methods is_callable conn_attr item =
        .proxy (conn_attr item)) ∧
    (item ≠ "name" → item ≠ "database" → item ≠ "connection" →
      methods item = true → is_callable (conn_attr item) = true →
      MongoProxy.getattr methods is_callable conn_attr item =
        .mongoConn (conn_attr item)) ∧
    (item ≠ "name" → item ≠ "database" → item ≠ "connection" →
      (methods item = false ∨ is_callable (conn_attr item) = false) →
      MongoProxy.getattr methods is_callable conn_attr item =
        .raw (conn_attr item)) := by
  refine ⟨?_, ?_, ?_, ?_⟩
  · intro hnd
    simp [MongoProxy.getattr, hnd]
  · intro hc
    subst hc
    simp [MongoProxy.getattr]
  · intro h1 h2 h3 hm hcall
    simp [MongoProxy.getattr, h1, h2, h3, hm, hcall]
  · intro h1 h2 h3 hmc
    cases hmc with
    | inl hm => simp [MongoProxy.getattr, h1, h2, h3, hm]
    | inr hcall => simp [MongoProxy.getattr, h1, h2, h3, hcall]

/-- Witness for C7 (amended): each branch of the classification at a
concrete operation-name set, callability predicate and handle. -/
theorem c7_classification_witness :
    MongoProxy.getattr (fun s => MONGO_METHODS.contains s) (fun _ => true)
        (fun _ => (0 : Nat)) "find" = .mongoConn 0 ∧
    MongoProxy.getattr (fun s => MONGO_METHODS.contains s) (fun _ => true)
        (fun _ => (0 : Nat)) "connection" = .proxy 0 ∧
    MongoProxy.getattr (fun s => MONGO_METHODS.contains s) (fun _ => false)
        (fun _ => (0 : Nat)) "full_name" = .raw 0 ∧
    MongoProxy.getattr (fun s => MONGO_METHODS.contains s) (fun _ => true)
        (fun _ => (0 : Nat)) "name" = .raw 0 :=
  ⟨(c7_classification _ _ _ "find").2.2.1 (by decide) (by decide) (by decide)
      (by decide) rfl,
   (c7_classification _ _ _ "connection").2.1 rfl,
   (c7_classification _ _ _ "full_name").2.2.2 (by decide) (by decide)
      (by decide) (Or.inr rfl),
   (c7_classification _ _ _ "name").1 (Or.inl rfl)⟩
